import Mathlib

/-!
Shallow embedding of `src/app.py` (Flask service "API Rekomendasi Jurusan").

The service keeps three process-wide mutable globals (`model`, `scaler`,
`label_encoder`), lazily loaded by `load_models()` from three pickle files,
and exposes `/health` (GET) and `/predict` (POST) handlers.

Embedding choices:
- Parsed JSON values (`request.get_json()` results) are `JValue`; an absent
  body (where Flask returns `None`) is represented by `JValue.null`, the same
  Python value as a JSON `null` body.
- The three deserialized artifacts are opaque fitted functions; numpy rows
  are lists, class ids are naturals. Pipeline stages may raise, modelled by
  `Except String`.
- Python global mutation is explicit state passing: every handler takes the
  triple of globals and returns the updated triple plus an HTTP response.
- Python truthiness (`if not data`) and the `in` operator (including its
  `TypeError` on non-container values) are modelled faithfully on `JValue`.
-/

namespace RekomendasiJurusan

/-- A parsed JSON value, as returned by `request.get_json()`.
`null` doubles as the Python `None` returned for an absent body. -/
inductive JValue where
  | null : JValue
  | bool (b : Bool) : JValue
  | num (q : Int) : JValue
  | str (s : String) : JValue
  | arr (xs : List JValue) : JValue
  | obj (kvs : List (String × JValue)) : JValue

/-- Python truthiness of a parsed JSON value (`if not data` in the handler):
`None`, `False`, `0`, `""`, `[]` and `{}` are falsy, everything else truthy. -/
def JValue.truthy : JValue → Bool
  | .null => false
  | .bool b => b
  | .num q => q != 0
  | .str s => !s.isEmpty
  | .arr xs => !xs.isEmpty
  | .obj kvs => !kvs.isEmpty

/-- Python single-quoted repr of a string (no escaping needed for the fixed
feature names). -/
def pyStrRepr (s : String) : String := "'" ++ s ++ "'"

/-- Python repr of a list of strings, as interpolated by
`f-strings` in the handler: `['a', 'b']`. -/
def pyListRepr : List String → String
  | [] => "[]"
  | x :: xs =>
    "[" ++ pyStrRepr x ++ String.join (xs.map (fun y => ", " ++ pyStrRepr y)) ++ "]"

/-- Whether the character list `needle` is a prefix of `hay`. -/
def charPrefixOf : List Char → List Char → Bool
  | [], _ => true
  | _ :: _, [] => false
  | a :: as, b :: bs => a == b && charPrefixOf as bs

/-- Whether `needle` occurs as a contiguous run inside `hay`
(Python `needle in hay` for strings). -/
def charSubOf (needle : List Char) : List Char → Bool
  | [] => charPrefixOf needle []
  | hay@(_ :: rest) => charPrefixOf needle hay || charSubOf needle rest

/-- Python membership `f in data` on a parsed JSON value: key lookup for
dicts, substring for strings, element equality for lists; raises `TypeError`
for `None`, booleans and numbers. -/
def pyContains (data : JValue) (f : String) : Except String Bool :=
  match data with
  | .obj kvs => .ok (kvs.any (fun p => p.1 == f))
  | .str s => .ok (charSubOf f.toList s.toList)
  | .arr xs =>
    .ok (xs.any (fun x => match x with | .str t => t == f | _ => false))
  | .null => .error "argument of type 'NoneType' is not iterable"
  | .bool _ => .error "argument of type 'bool' is not iterable"
  | .num _ => .error "argument of type 'int' is not iterable"

/-- First-match association lookup on the key/value pairs of a JSON object
(parsed JSON objects have distinct keys). -/
def lookupKey (kvs : List (String × JValue)) (f : String) : Option JValue :=
  (kvs.find? (fun p => p.1 == f)).map (fun p => p.2)

/-- Python subscript `data[f]` with a string key: value lookup for dicts
(raising `KeyError` when absent), `TypeError` otherwise. Only reached after
the membership check in the handler. -/
def getItem (data : JValue) (f : String) : Except String JValue :=
  match data with
  | .obj kvs =>
    match lookupKey kvs f with
    | some v => .ok v
    | none => .error ("KeyError: " ++ pyStrRepr f)
  | _ => .error "indices must be integers"

/-- FEATURE_COLUMNS from `src/app.py`: the canonical ordered list of the 13
required feature keys. -/
def FEATURE_COLUMNS : List String :=
  ["Matematika", "Fisika", "Kimia", "Biologi", "Ekonomi",
   "Sosiologi", "Agama Islam", "PPKN", "Sejarah",
   "Seni Budaya", "Penjas", "B_Indonesia", "B_Inggris"]

/-- The deserialized scaler artifact: an opaque fitted transform from the raw
extracted row to a normalized row; may raise (e.g. on non-numeric values). -/
structure Scaler where
  transform : List JValue → Except String (List Int)

/-- The deserialized classifier artifact: an opaque fitted model from a
normalized row to a list of encoded class ids; may raise. -/
structure Classifier where
  predict : List Int → Except String (List Nat)

/-- The deserialized label-encoder artifact: an opaque mapping from encoded
class ids back to track-name strings; may raise. -/
structure LabelEncoder where
  inverse_transform : List Nat → Except String (List String)

/-- The three process-wide globals `model`, `scaler`, `label_encoder` of
`src/app.py` (each `None` until loaded). -/
structure ModelState where
  model : Option Classifier
  scaler : Option Scaler
  label_encoder : Option LabelEncoder

/-- The globals at process start: `model = scaler = label_encoder = None`. -/
def initState : ModelState := ⟨none, none, none⟩

/-- `models_loaded` as computed by the handlers: `model is not None`. -/
def models_loaded (st : ModelState) : Bool := st.model.isSome

/-- One artifact file on disk: missing, present but failing to deserialize
(with the exception message `joblib.load` would raise), or deserializing to
an artifact. -/
inductive ArtifactFile (α : Type) where
  | absent : ArtifactFile α
  | corrupt (msg : String) : ArtifactFile α
  | good (a : α) : ArtifactFile α

/-- `os.path.exists` on an artifact path. -/
def fileExists {α : Type} : ArtifactFile α → Bool
  | .absent => false
  | .corrupt _ => true
  | .good _ => true

/-- `joblib.load` on an artifact path: raises `FileNotFoundError` when the
file is missing, the deserialization error when corrupt. -/
def joblib_load {α : Type} : ArtifactFile α → Except String α
  | .absent => .error "FileNotFoundError"
  | .corrupt msg => .error msg
  | .good a => .ok a

/-- The filesystem as seen by `load_models`: the three artifact paths
`model.pkl`, `scaler.pkl`, `label_encoder.pkl` resolved from the base
directory. -/
structure FS where
  modelFile : ArtifactFile Classifier
  scalerFile : ArtifactFile Scaler
  labelFile : ArtifactFile LabelEncoder

/-- Whether all three `os.path.exists` checks pass. -/
def allExist (fs : FS) : Bool :=
  fileExists fs.modelFile && fileExists fs.scalerFile && fileExists fs.labelFile

/-- Result of one `load_models()` call: the globals afterwards, the raised
exception message if any, and whether any filesystem I/O (existence checks /
loads) was performed. -/
structure LoadResult where
  state : ModelState
  err : Option String
  touchedDisk : Bool

/-- `load_models` from `src/app.py`: returns immediately when `model` is
already set; otherwise checks the three files exist (raising
`FileNotFoundError` naming the first missing one), then deserializes and
assigns `model`, then `scaler`, then `label_encoder` in that order. Each
assignment happens before the next load, so a later failure leaves the
earlier globals assigned. Exceptions are logged and re-raised. -/
def load_models (fs : FS) (st : ModelState) : LoadResult :=
  if st.model.isSome then
    { state := st, err := none, touchedDisk := false }
  else if !fileExists fs.modelFile then
    { state := st, err := some "model.pkl not found", touchedDisk := true }
  else if !fileExists fs.scalerFile then
    { state := st, err := some "scaler.pkl not found", touchedDisk := true }
  else if !fileExists fs.labelFile then
    { state := st, err := some "label_encoder.pkl not found", touchedDisk := true }
  else
    match joblib_load fs.modelFile with
    | .error m => { state := st, err := some m, touchedDisk := true }
    | .ok cm =>
      match joblib_load fs.scalerFile with
      | .error m =>
        { state := { st with model := some cm }, err := some m, touchedDisk := true }
      | .ok sc =>
        match joblib_load fs.labelFile with
        | .error m =>
          { state := { st with model := some cm, scaler := some sc },
            err := some m, touchedDisk := true }
        | .ok le =>
          { state := ⟨some cm, some sc, some le⟩, err := none, touchedDisk := true }

/-- An HTTP response: status code and JSON body, as produced by
`jsonify(...), code` (code defaulting to 200). -/
structure HttpResponse where
  status : Nat
  body : JValue

/-- Body `{'error': msg}` of the 400 responses. -/
def errBody (m : String) : JValue := .obj [("error", .str m)]

/-- Body `{'error': msg, 'status': 'failed'}` of the 500 responses. -/
def failBody (m : String) : JValue :=
  .obj [("error", .str m), ("status", .str "failed")]

/-- Body `{'rekomendasi_jurusan': name, 'status': 'success'}` of the 200
prediction response (the field the spec calls `recommendedTrack`). -/
def successBody (name : String) : JValue :=
  .obj [("rekomendasi_jurusan", .str name), ("status", .str "success")]

/-- The list comprehension `[f for f in cols if f not in data]`:
membership is evaluated left to right and may raise a `TypeError`. -/
def missingAmong (data : JValue) : List String → Except String (List String)
  | [] => .ok []
  | f :: fs => do
    let b ← pyContains data f
    let rest ← missingAmong data fs
    if b then pure rest else pure (f :: rest)

/-- The field check of the handler over the full canonical column list. -/
def missingFields (data : JValue) : Except String (List String) :=
  missingAmong data FEATURE_COLUMNS

/-- The list comprehension `[data[f] for f in cols]` extracting the feature
values in canonical order. -/
def extractValues (data : JValue) : List String → Except String (List JValue)
  | [] => .ok []
  | f :: fs => do
    let v ← getItem data f
    let rest ← extractValues data fs
    pure (v :: rest)

/-- `scaler.transform(...)` on the (possibly `None`) global: calling a method
on `None` raises `AttributeError`. -/
def callTransform (s : Option Scaler) (v : List JValue) :
    Except String (List Int) :=
  match s with
  | none => .error "NoneType object has no attribute transform"
  | some s => s.transform v

/-- `model.predict(...)` on the (possibly `None`) global. -/
def callPredict (m : Option Classifier) (v : List Int) :
    Except String (List Nat) :=
  match m with
  | none => .error "NoneType object has no attribute predict"
  | some m => m.predict v

/-- `label_encoder.inverse_transform(...)` on the (possibly `None`) global. -/
def callInverse (l : Option LabelEncoder) (v : List Nat) :
    Except String (List String) :=
  match l with
  | none => .error "NoneType object has no attribute inverse_transform"
  | some l => l.inverse_transform v

/-- Steps 4-7 of the handler: extract the 13 values in canonical order,
scale, predict, decode, and take element `[0]` of the decoded array
(raising `IndexError` if it is empty). -/
def run_pipeline (st : ModelState) (data : JValue) : Except String String := do
  let input_values ← extractValues data FEATURE_COLUMNS
  let input_scaled ← callTransform st.scaler input_values
  let hasil_encoded ← callPredict st.model input_scaled
  let decoded ← callInverse st.label_encoder hasil_encoded
  match decoded with
  | [] => .error "index 0 is out of bounds for axis 0 with size 0"
  | name :: _ => pure name

/-- The POST branch of `predict` from `src/app.py`. Takes the current
globals and the parsed request body (`JValue.null` for an absent body) and
returns the globals afterwards plus the HTTP response. The whole body runs
inside `try/except Exception`, so every raised exception (from the loader,
the membership check or the pipeline) becomes a 500 `{'error', 'status':
'failed'}` response. -/
def predict (fs : FS) (st : ModelState) (data : JValue) :
    ModelState × HttpResponse :=
  let lr := load_models fs st
  match lr.err with
  | some m => (lr.state, ⟨500, failBody m⟩)
  | none =>
    if !data.truthy then
      (lr.state, ⟨400, errBody "No JSON data provided"⟩)
    else
      match missingFields data with
      | .error m => (lr.state, ⟨500, failBody m⟩)
      | .ok missing =>
        if !missing.isEmpty then
          (lr.state,
           ⟨400, errBody ("Missing fields: " ++ pyListRepr missing)⟩)
        else
          match run_pipeline lr.state data with
          | .error m => (lr.state, ⟨500, failBody m⟩)
          | .ok name => (lr.state, ⟨200, successBody name⟩)

/-- `health` from `src/app.py`: reads the `model` global without triggering
a load and reports `{'status': 'healthy', 'models_loaded': model is not
None}` with HTTP 200. -/
def health (st : ModelState) : ModelState × HttpResponse :=
  (st, ⟨200,
    .obj [("status", .str "healthy"),
          ("models_loaded", .bool (models_loaded st))]⟩)

/-! Concrete fixtures used to instantiate the theorems below: a trivial but
fully concrete set of artifacts, the corresponding filesystem layouts, and
concrete request bodies. -/

/-- A concrete classifier artifact. -/
def testClassifier : Classifier := ⟨fun _ => .ok [0]⟩

/-- A concrete scaler artifact. -/
def testScaler : Scaler := ⟨fun _ => .ok [1]⟩

/-- A concrete label-encoder artifact mapping every id list to one track. -/
def testEncoder : LabelEncoder := ⟨fun _ => .ok ["IPA"]⟩

/-- Globals after a successful load of the test artifacts. -/
def stLoaded : ModelState := ⟨some testClassifier, some testScaler, some testEncoder⟩

/-- A filesystem with all three artifact files present and loadable. -/
def fsGood : FS := ⟨.good testClassifier, .good testScaler, .good testEncoder⟩

/-- A filesystem where `model.pkl` is missing. -/
def fsModelAbsent : FS := ⟨.absent, .good testScaler, .good testEncoder⟩

/-- A filesystem where `scaler.pkl` exists but fails to deserialize. -/
def fsScalerCorrupt : FS :=
  ⟨.good testClassifier, .corrupt "invalid load key", .good testEncoder⟩

/-- A request body holding all 13 canonical keys (value 80 each). -/
def fullBody : List (String × JValue) :=
  FEATURE_COLUMNS.map (fun f => (f, JValue.num 80))

/-- A partially loaded state: `model` set, `scaler` and `label_encoder`
still `None` (reachable when `scaler.pkl` fails to deserialize). -/
def stPartial : ModelState := ⟨some testClassifier, none, none⟩

/-! Helper lemmas. -/

/-- When `model` is already set, `load_models` returns at once: no error, no
filesystem I/O, globals untouched. -/
theorem load_models_loaded (fs : FS) (st : ModelState)
    (h : st.model.isSome = true) :
    load_models fs st = ⟨st, none, false⟩ := by
  simp [load_models, h]

/-- A `load_models` call that raises no exception leaves `model` set. -/
theorem load_models_err_none_model (fs : FS) (st : ModelState)
    (h : (load_models fs st).err = none) :
    (load_models fs st).state.model.isSome = true := by
  rcases fs with ⟨mf, sf, lf⟩
  cases hsm : st.model with
  | some m => simp [load_models, hsm]
  | none =>
    cases mf <;> cases sf <;> cases lf <;>
      simp_all [load_models, fileExists, joblib_load]

/-- On a dict, the field check never raises and returns exactly the keys of
`l` absent from the dict, in the order of `l`. -/
theorem missingAmong_obj (kvs : List (String × JValue)) (l : List String) :
    missingAmong (.obj kvs) l =
      .ok (l.filter (fun f => !(kvs.any fun p => p.1 == f))) := by
  induction l with
  | nil => rfl
  | cons f fs ih =>
    simp only [missingAmong, pyContains, List.filter_cons, ih]
    cases hb : kvs.any fun p => p.1 == f <;>
      simp [hb, Bind.bind, Except.bind, pure, Except.pure]

/-- Key membership in a dict is exactly definedness of the lookup. -/
theorem lookupKey_isSome (kvs : List (String × JValue)) (f : String) :
    (lookupKey kvs f).isSome = kvs.any fun p => p.1 == f := by
  induction kvs with
  | nil => rfl
  | cons p ps ih =>
    simp only [lookupKey, List.find?_cons, List.any_cons] at *
    cases h : p.1 == f <;> simp [h, ih]

/-- Two dicts agreeing on a key agree on its membership test. -/
theorem any_key_congr (kvs1 kvs2 : List (String × JValue)) (f : String)
    (h : lookupKey kvs1 f = lookupKey kvs2 f) :
    (kvs1.any fun p => p.1 == f) = (kvs2.any fun p => p.1 == f) := by
  rw [← lookupKey_isSome, ← lookupKey_isSome, h]

/-- Two dicts agreeing on a key agree on its subscript result. -/
theorem getItem_congr (kvs1 kvs2 : List (String × JValue)) (f : String)
    (h : lookupKey kvs1 f = lookupKey kvs2 f) :
    getItem (.obj kvs1) f = getItem (.obj kvs2) f := by
  simp [getItem, h]

/-- Two dicts agreeing on every key of `l` yield the same extracted values. -/
theorem extractValues_congr (kvs1 kvs2 : List (String × JValue))
    (l : List String) (h : ∀ f ∈ l, lookupKey kvs1 f = lookupKey kvs2 f) :
    extractValues (.obj kvs1) l = extractValues (.obj kvs2) l := by
  induction l with
  | nil => rfl
  | cons f fs ih =>
    simp only [extractValues,
      getItem_congr kvs1 kvs2 f (h f (by simp)),
      ih (fun g hg => h g (by simp [hg]))]

/-- Two dicts agreeing on every key of `l` have the same missing keys. -/
theorem filter_missing_congr (kvs1 kvs2 : List (String × JValue))
    (l : List String) (h : ∀ f ∈ l, lookupKey kvs1 f = lookupKey kvs2 f) :
    l.filter (fun f => !(kvs1.any fun p => p.1 == f)) =
      l.filter (fun f => !(kvs2.any fun p => p.1 == f)) := by
  induction l with
  | nil => rfl
  | cons f fs ih =>
    simp only [List.filter_cons,
      any_key_congr kvs1 kvs2 f (h f (by simp)),
      ih (fun g hg => h g (by simp [hg]))]

/-- The pipeline depends on the request body only through the extracted
values. -/
theorem run_pipeline_congr (st : ModelState) (d1 d2 : JValue)
    (h : extractValues d1 FEATURE_COLUMNS = extractValues d2 FEATURE_COLUMNS) :
    run_pipeline st d1 = run_pipeline st d2 := by
  simp [run_pipeline, h]

/-- Successful extraction over `l` means every key of `l` passes the
membership test. -/
theorem extract_ok_all_present (kvs : List (String × JValue))
    (l : List String) (vals : List JValue)
    (h : extractValues (.obj kvs) l = .ok vals) :
    ∀ f ∈ l, (kvs.any fun p => p.1 == f) = true := by
  induction l generalizing vals with
  | nil => simp
  | cons f fs ih =>
    intro g hg
    rw [← lookupKey_isSome]
    simp only [extractValues, getItem] at h
    cases hl : lookupKey kvs f with
    | none => rw [hl] at h; simp [Bind.bind, Except.bind] at h
    | some v =>
      rw [hl] at h
      simp only [Bind.bind, Except.bind] at h
      cases hrest : extractValues (.obj kvs) fs with
      | error m => rw [hrest] at h; simp at h
      | ok rest =>
        rcases List.mem_cons.mp hg with rfl | hg2
        · simp [hl]
        · have := ih rest hrest g hg2
          rw [← lookupKey_isSome] at this
          exact this

/-- The state returned by `predict` is always the post-load state: the
handler never mutates the globals after `load_models`. -/
theorem predict_state (fs : FS) (st : ModelState) (data : JValue) :
    (predict fs st data).1 = (load_models fs st).state := by
  cases herr : (load_models fs st).err with
  | some m => simp [predict, herr]
  | none =>
    simp only [predict, herr]
    split
    · rfl
    · split
      · rfl
      · split
        · rfl
        · split <;> rfl

/-! Claim theorems. -/

/-- C6: `load_models` is idempotent after success: whenever `model` is set
the call returns at once (no filesystem I/O, globals unchanged);
`models_loaded` is false in the initial state and true after any `/predict`
request that answered 200. -/
theorem C6_ensureLoaded_idempotent :
    (∀ (fs : FS) (st : ModelState), st.model.isSome = true →
      load_models fs st = ⟨st, none, false⟩) ∧
    models_loaded initState = false ∧
    (∀ (fs : FS) (data : JValue),
      (predict fs initState data).2.status = 200 →
      models_loaded (predict fs initState data).1 = true) := by
  refine ⟨load_models_loaded, rfl, ?_⟩
  intro fs data h200
  rw [predict_state]
  cases herr : (load_models fs initState).err with
  | none => exact load_models_err_none_model _ _ herr
  | some m =>
    exfalso
    simp [predict, herr] at h200

/-- C6 witness: with the test artifacts loaded, a further `load_models` call
returns the state unchanged, raises nothing and performs no I/O. -/
theorem C6_witness :
    load_models fsGood stLoaded = ⟨stLoaded, none, false⟩ :=
  C6_ensureLoaded_idempotent.1 fsGood stLoaded rfl

/-- C8: `health` returns the globals unchanged (no load is triggered) with
HTTP 200 and a `models_loaded` flag that reflects the current state; in the
initial state (before any prediction request) the flag is false. -/
theorem C8_health_frame :
    (∀ st : ModelState,
      health st = (st, ⟨200,
        .obj [("status", .str "healthy"),
              ("models_loaded", .bool (models_loaded st))]⟩)) ∧
    (health initState).2 = ⟨200,
      .obj [("status", .str "healthy"), ("models_loaded", .bool false)]⟩ :=
  ⟨fun _ => rfl, rfl⟩

/-- C9: the empty JSON object is falsy in Python, so `if not data` fires
before the missing-fields check and `/predict` answers 400 with error
`No JSON data provided` (not a missing-fields message). -/
theorem C9_empty_object (fs : FS) :
    predict fs stLoaded (.obj []) =
      (stLoaded, ⟨400, errBody "No JSON data provided"⟩) := rfl

/-- C10: the already-loaded short-circuit of `load_models` and the
`models_loaded` flag of `health` are decided solely by whether `model` is
set: for every state (in particular with `scaler` or `label_encoder` still
unset) the loader skips I/O iff `model` is set, and `health` reports the
flag as exactly `model is not None`. -/
theorem C10_model_decides (fs : FS) (st : ModelState) :
    ((load_models fs st).touchedDisk = false ↔ st.model.isSome = true) ∧
    (health st).2.body =
      .obj [("status", .str "healthy"),
            ("models_loaded", .bool st.model.isSome)] := by
  refine ⟨?_, rfl⟩
  rcases fs with ⟨mf, sf, lf⟩
  cases hsm : st.model with
  | some m => simp [load_models, hsm]
  | none =>
    cases mf <;> cases sf <;> cases lf <;>
      simp_all [load_models, fileExists, joblib_load]

/-- C7: with the body present and the field check passed, any exception
raised by feature extraction, scaling, inference or label decoding is
caught and answered as HTTP 500 with body `{'error': message, 'status':
'failed'}` — never as a 400. -/
theorem C7_pipeline_error_is_500 (fs : FS) (st : ModelState) (data : JValue)
    (m : String) (hm : st.model.isSome = true) (ht : data.truthy = true)
    (hmf : missingFields data = .ok [])
    (hp : run_pipeline st data = .error m) :
    predict fs st data = (st, ⟨500, failBody m⟩) := by
  simp [predict, load_models_loaded fs st hm, ht, hmf, hp]

/-- C7 witness: with `scaler` still `None`, a full valid body reaches the
scaling step, whose `AttributeError` surfaces as a 500 failed response. -/
theorem C7_witness :
    predict fsGood stPartial (.obj fullBody) =
      (stPartial,
       ⟨500, failBody "NoneType object has no attribute transform"⟩) :=
  C7_pipeline_error_is_500 fsGood stPartial (.obj fullBody)
    "NoneType object has no attribute transform" rfl rfl rfl rfl

/-- C3: for a body containing all 13 required keys, when the extraction,
the loaded scaler, classifier and label encoder all succeed and decode to a
(non-empty) track name, `/predict` answers HTTP 200 with body
`{'rekomendasi_jurusan': name, 'status': 'success'}` (the field the spec
calls `recommendedTrack`), the name produced by extracting the 13 values
in canonical order, scaling, predicting and decoding class id 0 of the
result. -/
theorem C3_success_response (fs : FS) (st : ModelState)
    (kvs : List (String × JValue)) (vals : List JValue) (scaled : List Int)
    (ids : List Nat) (name : String) (more : List String)
    (hm : st.model.isSome = true) (hne : kvs ≠ [])
    (hext : extractValues (.obj kvs) FEATURE_COLUMNS = .ok vals)
    (hsc : callTransform st.scaler vals = .ok scaled)
    (hpr : callPredict st.model scaled = .ok ids)
    (hde : callInverse st.label_encoder ids = .ok (name :: more))
    (hname : name ≠ "") :
    predict fs st (.obj kvs) = (st, ⟨200, successBody name⟩) ∧ name ≠ "" := by
  have ht : (JValue.obj kvs).truthy = true := by
    cases kvs with
    | nil => exact absurd rfl hne
    | cons a as => rfl
  have hpresent := extract_ok_all_present kvs FEATURE_COLUMNS vals hext
  have hfilter : FEATURE_COLUMNS.filter
      (fun f => !(kvs.any fun p => p.1 == f)) = [] := by
    rw [List.filter_eq_nil_iff]
    intro f hf
    simp [hpresent f hf]
  have hmf : missingFields (JValue.obj kvs) = .ok [] := by
    rw [missingFields, missingAmong_obj, hfilter]
  have hrun : run_pipeline st (JValue.obj kvs) = .ok name := by
    simp [run_pipeline, hext, hsc, hpr, hde, Bind.bind, Except.bind,
      pure, Except.pure]
  refine ⟨?_, hname⟩
  simp [predict, load_models_loaded fs st hm, ht, hmf, hrun]

/-- C3 witness: the full 13-key body against the loaded test artifacts
gets a 200 success response carrying the decoded track. -/
theorem C3_witness :
    predict fsGood stLoaded (.obj fullBody) =
      (stLoaded, ⟨200, successBody "IPA"⟩) ∧ ("IPA" : String) ≠ "" :=
  C3_success_response fsGood stLoaded fullBody
    (FEATURE_COLUMNS.map (fun _ => JValue.num 80)) [1] [0] "IPA" []
    rfl (by simp [fullBody, FEATURE_COLUMNS]) rfl rfl rfl rfl (by decide)

/-- C1 counterexample: with `model.pkl` loadable but `scaler.pkl` failing to
deserialize, the loader fails (the exception is re-raised) yet the
classifier global stays assigned — partial state IS retained — and the next
call hits the `model is not None` short-circuit and performs no filesystem
I/O instead of retrying. -/
theorem C1_counterexample :
    (load_models fsScalerCorrupt initState).err = some "invalid load key" ∧
    (load_models fsScalerCorrupt initState).state.model.isSome = true ∧
    (load_models fsScalerCorrupt initState).state.scaler = none ∧
    (load_models fsScalerCorrupt
      (load_models fsScalerCorrupt initState).state).touchedDisk = false :=
  ⟨rfl, rfl, rfl, rfl⟩

/-- C1 amended: when the load fails during the existence checks or while
deserializing `model.pkl` (the first artifact), all three globals remain
unset and the next call performs the filesystem checks again; a failure
deserializing a later artifact instead retains the already-assigned
globals and suppresses the retry (see the counterexample). -/
theorem C1_amended_early_failure (fs : FS)
    (h : allExist fs = false ∨ (∃ m, fs.modelFile = ArtifactFile.corrupt m)) :
    (load_models fs initState).err.isSome = true ∧
    (load_models fs initState).state = initState ∧
    (load_models fs (load_models fs initState).state).touchedDisk = true := by
  rcases fs with ⟨mf, sf, lf⟩
  rcases h with h | ⟨m, hm⟩
  · cases mf <;> cases sf <;> cases lf <;>
      simp_all [allExist, fileExists, load_models, joblib_load, initState]
  · subst hm
    cases sf <;> cases lf <;>
      simp_all [load_models, fileExists, joblib_load, initState]

/-- C1 witness: a missing `model.pkl` aborts the load with no state
retained, and the next call performs I/O again. -/
theorem C1_witness :
    (load_models fsModelAbsent initState).err.isSome = true ∧
    (load_models fsModelAbsent initState).state = initState ∧
    (load_models fsModelAbsent
      (load_models fsModelAbsent initState).state).touchedDisk = true :=
  C1_amended_early_failure fsModelAbsent (Or.inl rfl)

/-- C2 counterexample: the empty JSON object misses all 13 required keys,
yet the 400 it gets carries `No JSON data provided` — not the message
listing the missing keys that the claim requires. -/
theorem C2_counterexample :
    (predict fsGood stLoaded (.obj [])).2 =
      ⟨400, errBody "No JSON data provided"⟩ ∧
    ("No JSON data provided" : String) ≠
      "Missing fields: " ++ pyListRepr FEATURE_COLUMNS :=
  ⟨rfl, by decide⟩

/-- C2 amended: for every NON-EMPTY JSON-object body missing one or more of
the 13 required keys, `/predict` answers 400 and the message lists exactly
the missing keys in the canonical `FEATURE_COLUMNS` order (the filter of
the canonical list keeps that order); the empty object instead gets 400
`No JSON data provided`. -/
theorem C2_amended_missing_fields (fs : FS) (st : ModelState)
    (kvs : List (String × JValue)) (hm : st.model.isSome = true)
    (hne : kvs ≠ [])
    (hmiss : FEATURE_COLUMNS.filter
      (fun f => !(kvs.any fun p => p.1 == f)) ≠ []) :
    predict fs st (.obj kvs) =
      (st, ⟨400, errBody ("Missing fields: " ++ pyListRepr
        (FEATURE_COLUMNS.filter
          (fun f => !(kvs.any fun p => p.1 == f))))⟩) := by
  have ht : (JValue.obj kvs).truthy = true := by
    cases kvs with
    | nil => exact absurd rfl hne
    | cons a as => rfl
  have hmf : missingFields (JValue.obj kvs) = .ok
      (FEATURE_COLUMNS.filter (fun f => !(kvs.any fun p => p.1 == f))) :=
    missingAmong_obj kvs FEATURE_COLUMNS
  have hie : (FEATURE_COLUMNS.filter
      (fun f => !(kvs.any fun p => p.1 == f))).isEmpty = false := by
    cases hL : FEATURE_COLUMNS.filter (fun f => !(kvs.any fun p => p.1 == f)) with
    | nil => exact absurd hL hmiss
    | cons a as => rfl
  simp [predict, load_models_loaded fs st hm, ht, hmf, hie]

/-- C2 witness: a body holding only `Matematika` gets a 400 listing the
other 12 keys in canonical order. -/
theorem C2_witness :
    predict fsGood stLoaded (.obj [("Matematika", JValue.num 1)]) =
      (stLoaded, ⟨400, errBody ("Missing fields: " ++ pyListRepr
        (FEATURE_COLUMNS.filter (fun f =>
          !([("Matematika", JValue.num 1)].any fun p => p.1 == f))))⟩) :=
  C2_amended_missing_fields fsGood stLoaded [("Matematika", JValue.num 1)]
    rfl (by simp) (by decide)

/-- C4 counterexample: the JSON number `1` is a present, truthy, non-object
body; it passes `if not data`, and the membership check then raises a
`TypeError` that surfaces as HTTP 500 — not the claimed 400 with
`No JSON data provided`. -/
theorem C4_counterexample :
    predict fsGood stLoaded (.num 1) =
      (stLoaded,
       ⟨500, failBody "argument of type 'int' is not iterable"⟩) ∧
    (predict fsGood stLoaded (.num 1)).2.status ≠ 400 :=
  ⟨rfl, by decide⟩

/-- C4 amended: `/predict` answers 400 with `No JSON data provided` exactly
for bodies whose parsed value is falsy in Python — an absent body (`None`),
`null`, `false`, `0`, the empty string, array or object — not for every
non-object body: a truthy non-object body instead reaches the membership
check (see the counterexample). -/
theorem C4_amended_falsy_body (fs : FS) (st : ModelState) (data : JValue)
    (hm : st.model.isSome = true) (hf : data.truthy = false) :
    predict fs st data = (st, ⟨400, errBody "No JSON data provided"⟩) := by
  simp [predict, load_models_loaded fs st hm, hf]

/-- C4 witness: an absent body (parsed as `None`) gets the 400
`No JSON data provided` response. -/
theorem C4_witness :
    predict fsGood stLoaded JValue.null =
      (stLoaded, ⟨400, errBody "No JSON data provided"⟩) :=
  C4_amended_falsy_body fsGood stLoaded JValue.null rfl rfl

/-- C5 counterexample: the empty object and `{"x": 1}` agree on all 13
required keys (none is present in either), yet `/predict` answers them
differently: `No JSON data provided` versus a missing-fields message. -/
theorem C5_counterexample :
    (FEATURE_COLUMNS.all (fun f =>
      (lookupKey [] f).isNone &&
      (lookupKey [("x", JValue.num 1)] f).isNone)) = true ∧
    (predict fsGood stLoaded (.obj [])).2.body =
      errBody "No JSON data provided" ∧
    (predict fsGood stLoaded (.obj [("x", JValue.num 1)])).2.body =
      errBody ("Missing fields: " ++ pyListRepr FEATURE_COLUMNS) ∧
    ("No JSON data provided" : String) ≠
      "Missing fields: " ++ pyListRepr FEATURE_COLUMNS :=
  ⟨rfl, rfl, rfl, by decide⟩

/-- C5 amended: for two NON-EMPTY JSON-object bodies that agree on each of
the 13 required keys (same presence and same value), `/predict` returns the
same state and response whatever extra unknown keys either carries; the
empty object is the one exception (see the counterexample). -/
theorem C5_amended_extra_keys_ignored (fs : FS) (st : ModelState)
    (kvs1 kvs2 : List (String × JValue))
    (h1 : kvs1 ≠ []) (h2 : kvs2 ≠ [])
    (hagree : ∀ f ∈ FEATURE_COLUMNS, lookupKey kvs1 f = lookupKey kvs2 f) :
    predict fs st (.obj kvs1) = predict fs st (.obj kvs2) := by
  have t1 : (JValue.obj kvs1).truthy = true := by
    cases kvs1 with
    | nil => exact absurd rfl h1
    | cons a as => rfl
  have t2 : (JValue.obj kvs2).truthy = true := by
    cases kvs2 with
    | nil => exact absurd rfl h2
    | cons a as => rfl
  have hfil := filter_missing_congr kvs1 kvs2 FEATURE_COLUMNS hagree
  have hext := extractValues_congr kvs1 kvs2 FEATURE_COLUMNS hagree
  have hrun := run_pipeline_congr (load_models fs st).state _ _ hext
  cases herr : (load_models fs st).err with
  | some m => simp [predict, herr]
  | none =>
    simp [predict, herr, t1, t2, missingFields, missingAmong_obj, hfil, hrun]

/-- C5 witness: adding an unknown extra key to the full 13-key body leaves
the response unchanged. -/
theorem C5_witness :
    predict fsGood stLoaded (.obj fullBody) =
      predict fsGood stLoaded
        (.obj (fullBody ++ [("extra", JValue.str "ignored")])) :=
  C5_amended_extra_keys_ignored fsGood stLoaded fullBody
    (fullBody ++ [("extra", JValue.str "ignored")])
    (by simp [fullBody, FEATURE_COLUMNS])
    (by simp [fullBody, FEATURE_COLUMNS])
    (by intro f hf; fin_cases hf <;> rfl)

end RekomendasiJurusan
